import Mathlib

/-!
Shallow embedding of the job-portal core logic (match scoring,
application lifecycle tracking, and the REST handlers that drive them),
translated from:
  server/routes/jobs.js          (calculateJobMatch)
  server/routes/applications.js  (POST /, PUT /:id/status, POST /:id/accept-offer)
  server/models/Application.js   (schema enums, pre-save hook, updateStatus,
                                  calculateMatchScore)
  server/models/Job.js, server/models/User.js (document shapes)

JavaScript numbers on the claim-relevant paths are small integers and
small exact-denominator fractions; we model them with ℚ/ℕ/ℤ.
Math.round(x) is floor(x + 1/2), which matches JS for non-negative values.
Date values are modelled as natural-number ticks supplied by the caller.
-/

/-- JS `String.prototype.toLowerCase` restricted to the ASCII inputs used here. -/
def toLowerCase (s : String) : String := ⟨s.data.map Char.toLower⟩

/-- Contiguous-sublist test on character lists (helper for `strIncludes`). -/
def charsInclude (hay sub : List Char) : Bool :=
  match hay with
  | [] => sub.isEmpty
  | _ :: t => sub.isPrefixOf hay || charsInclude t sub

/-- JS `String.prototype.includes`: `strIncludes s sub` holds when `sub`
occurs contiguously inside `s`. -/
def strIncludes (s sub : String) : Bool := charsInclude s.data sub.data

/-- JS `Math.round` on the (non-negative, exact) rationals arising here. -/
def jsRound (q : ℚ) : ℤ := ⌊q + 1/2⌋

/-! ## Document shapes (Job.js / User.js) -/

/-- `location` sub-object of a job (Job.js).  Absent string fields are `none`. -/
structure JobLocation where
  city : Option String
  state : Option String
  country : Option String
  remote : Bool
deriving DecidableEq

/-- `requirements` sub-object of a job (Job.js); only the `skills` field is
read by the scorer. -/
structure JobRequirements where
  skills : List String
deriving DecidableEq

/-- A job document: the fields of Job.js read by the routes under study. -/
structure Job where
  id : String
  company : String
  requirements : Option JobRequirements
  location : Option JobLocation
  jobType : String
  level : String
  status : String
  approved : Bool
deriving DecidableEq

/-- `profile.location` of a user (User.js). -/
structure GeoLocation where
  city : Option String
  state : Option String
  country : Option String
deriving DecidableEq

/-- `profile` sub-object of a user; only `location` is read by the scorer. -/
structure Profile where
  location : Option GeoLocation
deriving DecidableEq

/-- One entry of `candidateProfile.experience` (User.js); only `title` is read. -/
structure ExperienceEntry where
  title : String
deriving DecidableEq

/-- One entry of `candidateProfile.education` (User.js); only `degree` is read. -/
structure EducationEntry where
  degree : String
deriving DecidableEq

/-- `candidateProfile` sub-object of a user (User.js). -/
structure CandidateProfile where
  skills : List String
  experience : List ExperienceEntry
  education : List EducationEntry
  preferredJobTypes : List String
deriving DecidableEq

/-- A user document: the fields of User.js read by the routes under study. -/
structure User where
  id : String
  role : String
  profile : Option Profile
  candidateProfile : Option CandidateProfile
deriving DecidableEq

/-- `user.candidateProfile?.skills || []` -/
def candidateSkillsOf (user : User) : List String :=
  match user.candidateProfile with
  | some p => p.skills
  | none => []

/-- `user.candidateProfile?.experience` (defaulting to empty) -/
def candidateExperienceOf (user : User) : List ExperienceEntry :=
  match user.candidateProfile with
  | some p => p.experience
  | none => []

/-- `user.candidateProfile?.education` (defaulting to empty) -/
def candidateEducationOf (user : User) : List EducationEntry :=
  match user.candidateProfile with
  | some p => p.education
  | none => []

/-- `user.candidateProfile?.preferredJobTypes || []` -/
def preferredJobTypesOf (user : User) : List String :=
  match user.candidateProfile with
  | some p => p.preferredJobTypes
  | none => []

/-- `user.profile?.location` -/
def userLocationOf (user : User) : Option GeoLocation :=
  match user.profile with
  | some p => p.location
  | none => none

/-! ## calculateJobMatch (routes/jobs.js, lines 409-462) -/

/-- JS truthiness-guarded case-insensitive equality of two optional string
fields: `a && b && (a.toLowerCase() === b.toLowerCase())` (an empty string is
falsy in JS). -/
def locFieldMatch (a b : Option String) : Bool :=
  match a, b with
  | some x, some y => x ≠ "" && y ≠ "" && (toLowerCase x == toLowerCase y)
  | _, _ => false

/-- `job.requirements?.skills || []` -/
def jobSkillsOf (job : Job) : List String :=
  match job.requirements with
  | some r => r.skills
  | none => []

/-- The `matchingSkills` filter of calculateJobMatch: candidate skills for
which some job skill matches by case-insensitive substring containment in
either direction. -/
def matchingSkills (job : Job) (user : User) : List String :=
  (candidateSkillsOf user).filter (fun skill =>
    (jobSkillsOf job).any (fun jobSkill =>
      strIncludes (toLowerCase jobSkill) (toLowerCase skill) ||
      strIncludes (toLowerCase skill) (toLowerCase jobSkill)))

/-- Skill component of calculateJobMatch (max 50). -/
def skillScore (job : Job) (user : User) : ℚ :=
  if 0 < (candidateSkillsOf user).length ∧ 0 < (jobSkillsOf job).length then
    ((matchingSkills job user).length : ℚ) /
      ((Nat.max (candidateSkillsOf user).length (jobSkillsOf job).length : ℕ) : ℚ) * 50
  else 0

/-- Location component of calculateJobMatch (max 20).  The whole block is
guarded by `userLocation && job.location`; the remote bonus sits inside
that guard. -/
def locationScore (job : Job) (user : User) : ℚ :=
  match userLocationOf user, job.location with
  | some userLocation, some jobLoc =>
      if jobLoc.remote then 20
      else if locFieldMatch userLocation.city jobLoc.city then 20
      else if locFieldMatch userLocation.state jobLoc.state then 15
      else if locFieldMatch userLocation.country jobLoc.country then 10
      else 0
  | _, _ => 0

/-- Job-type-preference component of calculateJobMatch (max 15). -/
def jobTypeScore (job : Job) (user : User) : ℚ :=
  if (preferredJobTypesOf user).contains job.jobType then 15 else 0

/-- Experience-level component of calculateJobMatch (max 15):
an else-if chain over `job.level` bands on `userExperience`, the number of
the candidate's experience entries (`user.candidateProfile?.experience?.length
|| 0`). -/
def experienceScore (job : Job) (user : User) : ℚ :=
  if job.level = "entry" ∧ (candidateExperienceOf user).length ≤ 1 then 15
  else if job.level = "junior" ∧ (candidateExperienceOf user).length ≤ 3 then 15
  else if job.level = "mid" ∧ 2 ≤ (candidateExperienceOf user).length ∧
    (candidateExperienceOf user).length ≤ 7 then 15
  else if job.level = "senior" ∧ 5 ≤ (candidateExperienceOf user).length then 15
  else if job.level = "lead" ∧ 7 ≤ (candidateExperienceOf user).length then 15
  else if job.level = "executive" ∧ 10 ≤ (candidateExperienceOf user).length then 15
  else 0

/-- calculateJobMatch (routes/jobs.js): `null` for non-candidates, otherwise
the rounded weighted sum of the four components. -/
def calculateJobMatch (job : Job) (user : User) : Option ℤ :=
  if user.role ≠ "candidate" then none
  else some (jsRound
    (skillScore job user + locationScore job user +
     jobTypeScore job user + experienceScore job user))

/-! ## Application model (models/Application.js) -/

/-- The 9-value `status` enum of the Application schema. -/
def statusEnum : List String :=
  ["applied", "reviewing", "shortlisted", "interview-scheduled", "interviewed",
   "offered", "hired", "rejected", "withdrawn"]

/-- The `timeline.action` enum of the Application schema.  Note: it contains
`"viewed"` and does NOT contain `"reviewing"`, unlike `statusEnum`. -/
def timelineActionEnum : List String :=
  ["applied", "viewed", "shortlisted", "interview-scheduled", "interviewed",
   "offered", "hired", "rejected", "withdrawn"]

/-- One entry of the `timeline` array.  The pre-save hook pushes entries with
no `notes` field, so `notes` is optional. -/
structure TimelineEntry where
  action : String
  date : ℕ
  performedBy : String
  notes : Option String
deriving DecidableEq

/-- The `offer` sub-record fields touched by accept-offer. -/
structure Offer where
  accepted : Bool := false
  acceptedAt : Option ℕ := none
deriving DecidableEq

/-- An Application document.  `statusModified` models mongoose's dirty
tracking of the `status` path: assigning a value different from the current
one marks the path modified (assigning an equal primitive does not); defaults
applied to a new document are not marked modified. -/
structure Application where
  job : String
  applicant : String
  employer : String
  status : String
  coverLetter : String
  skills : List String
  experience : List String
  education : List String
  timeline : List TimelineEntry
  offer : Offer
  matchScore : Option ℕ
  statusModified : Bool
deriving DecidableEq

/-- `this.status = newStatus` with mongoose dirty tracking. -/
def setStatus (app : Application) (newStatus : String) : Application :=
  { app with status := newStatus,
             statusModified := app.statusModified || (newStatus != app.status) }

/-- Schema validation of a timeline entry: `action` must lie in the enum. -/
def validTimelineEntry (e : TimelineEntry) : Bool :=
  timelineActionEnum.contains e.action

/-- Schema validation run by `save()`: `status` and every timeline entry's
`action` must lie in their enums. -/
def validateApp (app : Application) : Bool :=
  statusEnum.contains app.status && app.timeline.all validTimelineEntry

/-- The `applicationSchema.pre('save')` middleware: if the `status` path is
modified, push a timeline entry `{action: status, date: now, performedBy:
employer}` (no notes). -/
def preSaveHook (app : Application) (now : ℕ) : Application :=
  if app.statusModified then
    { app with timeline := app.timeline ++
        [{ action := app.status, date := now,
           performedBy := app.employer, notes := none }] }
  else app

/-- `document.save()`: mongoose validates first (validation hooks run before
user-defined pre-save hooks), then runs the pre-save middleware and persists;
a validation failure rejects with a ValidationError and persists nothing. -/
def save (app : Application) (now : ℕ) : Except String Application :=
  if validateApp app then
    Except.ok { preSaveHook app now with statusModified := false }
  else Except.error "ValidationError"

/-- `applicationSchema.methods.updateStatus`: set the status, push a timeline
entry `{action: newStatus, date: now, performedBy, notes}`, then save. -/
def updateStatus (app : Application) (newStatus performedBy notes : String)
    (now : ℕ) : Except String Application :=
  let app := setStatus app newStatus
  let app := { app with timeline := app.timeline ++
      [{ action := newStatus, date := now,
         performedBy := performedBy, notes := some notes }] }
  save app now

/-- The score computed by `applicationSchema.methods.calculateMatchScore`. -/
def calculateMatchScoreValue (app : Application) : ℕ :=
  let s1 := if 0 < app.skills.length then min (app.skills.length * 10) 50 else 0
  let s2 := if 0 < app.experience.length then min (app.experience.length * 5) 30 else 0
  let s3 := if 0 < app.education.length then min (app.education.length * 5) 20 else 0
  min (s1 + s2 + s3) 100

/-- `applicationSchema.methods.calculateMatchScore`: store the score on the
document and save. -/
def calculateMatchScore (app : Application) (now : ℕ) : Except String Application :=
  save { app with matchScore := some (calculateMatchScoreValue app) } now

/-! ## REST handlers (routes/applications.js) -/

/-- Outcome of a request: HTTP status code and (for paths that persist a
document) the application as persisted by that request. -/
structure RouteResult where
  statusCode : ℕ
  app : Option Application
deriving DecidableEq

/-- Modelled from the spec: the express-validator `isMongoId` check (the
validation middleware itself is an out-of-scope external dependency) — a
24-character hex string. -/
def isMongoId (s : String) : Bool :=
  s.length == 24 && s.data.all (fun c => c.isDigit || "abcdefABCDEF".data.contains c)

/-- Modelled from the spec: the express-validator `isURL` check (external
dependency), abstracted as containing a scheme separator. -/
def isURL (s : String) : Bool := strIncludes s "://"

/-- Request body of `POST /api/applications`. -/
structure SubmitRequest where
  jobId : String
  coverLetter : String
  resume : Option String
deriving DecidableEq

/-- The express-validator chain of `POST /api/applications`: valid job id,
non-empty trimmed cover letter (i.e. containing a non-whitespace character)
of at most 2000 characters, optional URL resume. -/
def validateSubmit (req : SubmitRequest) : Bool :=
  isMongoId req.jobId &&
  req.coverLetter.data.any (fun c => !c.isWhitespace) &&
  req.coverLetter.length ≤ 2000 &&
  (match req.resume with | none => true | some r => isURL r)

/-- The `new Application({...})` document built by `POST /api/applications`.
Mongoose defaults (here `status`) are not marked modified on a new document,
so the initial `save()` does not fire the status branch of the pre-save
hook. -/
def newApplication (job : Job) (user : User) (req : SubmitRequest) : Application := {
  job := req.jobId
  applicant := user.id
  employer := job.company
  status := "applied"
  coverLetter := req.coverLetter
  skills := candidateSkillsOf user
  experience := (candidateExperienceOf user).map (fun e => e.title)
  education := (candidateEducationOf user).map (fun e => e.degree)
  timeline := []
  offer := {}
  matchScore := none
  statusModified := false }

/-- `POST /api/applications` (routes/applications.js).  `jobs` and `apps` are
the persisted Job and Application collections.  The `candidate` auth
middleware (source not in the repository snapshot) is modelled from the spec:
only candidates may submit. -/
def postApplicationRoute (jobs : List Job) (apps : List Application)
    (user : User) (req : SubmitRequest) (now : ℕ) : RouteResult :=
  if user.role ≠ "candidate" then ⟨403, none⟩
  else if ¬ validateSubmit req then ⟨400, none⟩
  else match jobs.find? (fun j => j.id == req.jobId) with
  | none => ⟨404, none⟩
  | some job =>
    if job.status ≠ "active" ∨ job.approved = false then ⟨400, none⟩
    else if apps.any (fun a => a.job == req.jobId && a.applicant == user.id) then
      ⟨400, none⟩
    else
      let application := newApplication job user req
      match save application now with
      | Except.error _ => ⟨500, none⟩
      | Except.ok saved =>
        match calculateMatchScore saved now with
        | Except.error _ => ⟨500, none⟩
        | Except.ok scored => ⟨201, some scored⟩

/-- The Application collection after a `POST /api/applications` request:
unchanged unless a document was persisted. -/
def postApplicationApps (jobs : List Job) (apps : List Application)
    (user : User) (req : SubmitRequest) (now : ℕ) : List Application :=
  match (postApplicationRoute jobs apps user req now).app with
  | some d => apps ++ [d]
  | none => apps

/-- `PUT /api/applications/:id/status` (routes/applications.js).  The
express-validator `isIn` check on `status` runs first; the `employer` auth
middleware (source not in the repository snapshot) is modelled from the spec:
employers and admins may pass.  A rejected `save()` is caught and surfaces
as HTTP 500 with nothing persisted. -/
def putStatusRoute (application : Option Application) (actor : User)
    (status notes : String) (now : ℕ) : RouteResult :=
  if actor.role ≠ "employer" ∧ actor.role ≠ "admin" then ⟨403, none⟩
  else if ¬ statusEnum.contains status then ⟨400, none⟩
  else match application with
  | none => ⟨404, none⟩
  | some app =>
    if app.employer ≠ actor.id ∧ actor.role ≠ "admin" then ⟨403, none⟩
    else match updateStatus app status actor.id notes now with
      | Except.ok doc => ⟨200, some doc⟩
      | Except.error _ => ⟨500, none⟩

/-- `POST /api/applications/:id/accept-offer` (routes/applications.js).
Only the applicant may accept; requires current status `offered`; sets
`offer.accepted` and `offer.acceptedAt`, then `updateStatus('hired', ...)`. -/
def acceptOfferRoute (application : Option Application) (actor : User)
    (now : ℕ) : RouteResult :=
  if actor.role ≠ "candidate" then ⟨403, none⟩
  else match application with
  | none => ⟨404, none⟩
  | some app =>
    if app.applicant ≠ actor.id then ⟨403, none⟩
    else if app.status ≠ "offered" then ⟨400, none⟩
    else
      let app := { app with offer :=
        { app.offer with accepted := true, acceptedAt := some now } }
      match updateStatus app "hired" actor.id "Offer accepted" now with
      | Except.ok doc => ⟨200, some doc⟩
      | Except.error _ => ⟨500, none⟩

/-! ## Concrete fixtures -/

/-- A freshly submitted application with one `applied` timeline entry. -/
def baseApp : Application := {
  job := "job1"
  applicant := "cand1"
  employer := "emp1"
  status := "applied"
  coverLetter := "Dear team"
  skills := []
  experience := []
  education := []
  timeline := [{ action := "applied", date := 0, performedBy := "cand1", notes := none }]
  offer := {}
  matchScore := some 0
  statusModified := false }

/-- An application that has received an offer. -/
def offeredApp : Application := { baseApp with
  status := "offered"
  timeline := baseApp.timeline ++
    [{ action := "offered", date := 1, performedBy := "emp1", notes := some "Job offer made" }] }

/-- The employer owning the fixture applications. -/
def employerActor : User := ⟨"emp1", "employer", none, none⟩

/-- The candidate owning the fixture applications; their candidate profile is
entirely empty and their profile carries no location. -/
def candidateActor : User := ⟨"cand1", "candidate", none, some ⟨[], [], [], []⟩⟩

/-- A remote job with no other scoring surface. -/
def remoteJob : Job := {
  id := "0123456789abcdef01234567"
  company := "emp1"
  requirements := none
  location := some ⟨none, none, none, true⟩
  jobType := "full-time"
  level := "mid"
  status := "active"
  approved := true }

/-- A remote entry-level job. -/
def entryRemoteJob : Job := { remoteJob with level := "entry" }

/-- The candidate/job pair of the spec's skill-overlap example. -/
def reactUser : User :=
  ⟨"cand1", "candidate", none, some ⟨["JavaScript", "React"], [], [], []⟩⟩

/-- Job requiring React, Node.js and MongoDB, with no other scoring surface. -/
def reactJob : Job := { remoteJob with
  requirements := some ⟨["React", "Node.js", "MongoDB"]⟩
  location := none }

/-- An active approved job whose id matches `validReq`. -/
def activeJob : Job := { remoteJob with location := none }

/-- A well-formed submission request body for `activeJob`. -/
def validReq : SubmitRequest :=
  ⟨"0123456789abcdef01234567", "Dear team", none⟩


/-- A candidate located in Oslo. -/
def locatedUser : User :=
  ⟨"cand2", "candidate", some ⟨some ⟨some "Oslo", none, none⟩⟩, none⟩

/-- An application carrying the skill snapshot of `reactUser`. -/
def reactApp : Application := { baseApp with skills := ["JavaScript", "React"] }

/-! ## Helper lemmas -/

lemma skillScore_react_eval : skillScore reactJob reactUser = 50 / 3 := by
  have hm : (matchingSkills reactJob reactUser).length = 1 := by decide
  have hc : (candidateSkillsOf reactUser).length = 2 := by decide
  have hj : (jobSkillsOf reactJob).length = 3 := by decide
  have hmax : Nat.max 2 3 = 3 := rfl
  simp only [skillScore, hm, hc, hj, hmax]
  rw [if_pos (by norm_num)]
  norm_num

lemma calculateJobMatch_react_eval : calculateJobMatch reactJob reactUser = some 17 := by
  have hl : locationScore reactJob reactUser = 0 := by decide
  have ht : jobTypeScore reactJob reactUser = 0 := by decide
  have he : experienceScore reactJob reactUser = 0 := by decide
  have hrole : ¬ reactUser.role ≠ "candidate" := by decide
  simp only [calculateJobMatch]
  rw [if_neg hrole, skillScore_react_eval, hl, ht, he, jsRound]
  norm_num [Int.floor_eq_iff]

/-- A new application document validates and saves unchanged (its status is
the default `applied`, its timeline empty, and nothing is marked modified). -/
lemma save_newApplication (job : Job) (user : User) (req : SubmitRequest) (now : ℕ) :
    save (newApplication job user req) now = Except.ok (newApplication job user req) := rfl

/-- The created application after `calculateMatchScore` stored its score. -/
def scoredApplication (job : Job) (user : User) (req : SubmitRequest) : Application :=
  { newApplication job user req with
    matchScore := some (calculateMatchScoreValue (newApplication job user req)) }

lemma calculateMatchScore_newApplication (job : Job) (user : User)
    (req : SubmitRequest) (now : ℕ) :
    calculateMatchScore (newApplication job user req) now =
      Except.ok (scoredApplication job user req) := rfl

/-- The success path of `POST /api/applications`. -/
lemma postApplication_success (jobs : List Job) (apps : List Application)
    (user : User) (req : SubmitRequest) (now : ℕ) (job : Job)
    (hrole : user.role = "candidate") (hv : validateSubmit req = true)
    (hfind : jobs.find? (fun j => j.id == req.jobId) = some job)
    (hactive : job.status = "active") (happroved : job.approved = true)
    (hany : apps.any (fun a => a.job == req.jobId && a.applicant == user.id) = false) :
    postApplicationRoute jobs apps user req now =
      ⟨201, some (scoredApplication job user req)⟩ := by
  unfold postApplicationRoute
  rw [if_neg (by simp [hrole]), if_neg (by simp [hv]), hfind]
  change (if job.status ≠ "active" ∨ job.approved = false
      then (⟨400, none⟩ : RouteResult) else _) = _
  rw [if_neg (by simp [hactive, happroved]), if_neg (by simp [hany])]
  rfl

/-- Whenever `POST /api/applications` persists a document, that document
carries the requested (job, applicant) pair and the duplicate check was
negative. -/
lemma postApplication_created (jobs : List Job) (apps : List Application)
    (user : User) (req : SubmitRequest) (now : ℕ) (d : Application)
    (h : (postApplicationRoute jobs apps user req now).app = some d) :
    d.job = req.jobId ∧ d.applicant = user.id ∧
      apps.any (fun a => a.job == req.jobId && a.applicant == user.id) = false := by
  unfold postApplicationRoute at h
  by_cases h1 : user.role ≠ "candidate"
  · rw [if_pos h1] at h; simp at h
  rw [if_neg h1] at h
  by_cases h2 : ¬ validateSubmit req = true
  · rw [if_pos h2] at h; simp at h
  rw [if_neg h2] at h
  cases hfind : jobs.find? (fun j => j.id == req.jobId) with
  | none => rw [hfind] at h; simp at h
  | some job =>
    rw [hfind] at h
    change (RouteResult.app (if job.status ≠ "active" ∨ job.approved = false
        then (⟨400, none⟩ : RouteResult) else _)) = some d at h
    by_cases h3 : job.status ≠ "active" ∨ job.approved = false
    · rw [if_pos h3] at h; simp at h
    rw [if_neg h3] at h
    by_cases h4 : (apps.any fun a => a.job == req.jobId && a.applicant == user.id) = true
    · rw [if_pos h4] at h; simp at h
    rw [if_neg h4] at h
    have hany : apps.any (fun a => a.job == req.jobId && a.applicant == user.id)
        = false := by simpa using h4
    simp only [save_newApplication, calculateMatchScore_newApplication] at h
    simp at h
    subst h
    exact ⟨rfl, rfl, hany⟩

/-- At most one application per (job, applicant) pair. -/
def pairUnique (apps : List Application) : Prop :=
  List.Pairwise (fun a b => a.job ≠ b.job ∨ a.applicant ≠ b.applicant) apps

lemma skillScore_nonneg (job : Job) (user : User) : 0 ≤ skillScore job user := by
  unfold skillScore
  split_ifs with h
  · positivity
  · exact le_rfl

lemma skillScore_le_fifty (job : Job) (user : User) : skillScore job user ≤ 50 := by
  unfold skillScore
  split_ifs with h
  · obtain ⟨hc, _⟩ := h
    have hMpos : 0 < Nat.max (candidateSkillsOf user).length (jobSkillsOf job).length :=
      lt_of_lt_of_le hc (Nat.le_max_left _ _)
    have hmM : (matchingSkills job user).length ≤
        Nat.max (candidateSkillsOf user).length (jobSkillsOf job).length := by
      unfold matchingSkills
      exact le_trans (List.length_filter_le _ _) (Nat.le_max_left _ _)
    have h1 : ((matchingSkills job user).length : ℚ) /
        ((Nat.max (candidateSkillsOf user).length (jobSkillsOf job).length : ℕ) : ℚ) ≤ 1 := by
      rw [div_le_one (by exact_mod_cast hMpos)]
      exact_mod_cast hmM
    have := mul_le_mul_of_nonneg_right h1 (by norm_num : (0 : ℚ) ≤ 50)
    simpa using this
  · norm_num

lemma locationScore_none (job : Job) (user : User)
    (h : userLocationOf user = none) : locationScore job user = 0 := by
  unfold locationScore
  rw [h]

lemma locationScore_some (job : Job) (user : User) (u : GeoLocation) (l : JobLocation)
    (hu : userLocationOf user = some u) (hl : job.location = some l) :
    locationScore job user =
      if l.remote then 20
      else if locFieldMatch u.city l.city then 20
      else if locFieldMatch u.state l.state then 15
      else if locFieldMatch u.country l.country then 10
      else 0 := by
  unfold locationScore
  rw [hu, hl]

lemma locationScore_bounds (job : Job) (user : User) :
    0 ≤ locationScore job user ∧ locationScore job user ≤ 20 := by
  rcases hu : userLocationOf user with _ | u
  · rw [locationScore_none job user hu]; norm_num
  · rcases hl : job.location with _ | l
    · have h0 : locationScore job user = 0 := by
        unfold locationScore
        rw [hu, hl]
      rw [h0]; norm_num
    · rw [locationScore_some job user u l hu hl]
      constructor <;> split_ifs <;> norm_num

lemma jobTypeScore_bounds (job : Job) (user : User) :
    0 ≤ jobTypeScore job user ∧ jobTypeScore job user ≤ 15 := by
  unfold jobTypeScore
  split_ifs <;> norm_num

lemma experienceScore_bounds (job : Job) (user : User) :
    0 ≤ experienceScore job user ∧ experienceScore job user ≤ 15 := by
  unfold experienceScore
  split_ifs <;> norm_num

/-! ## Claims -/

/-- Claim C1: every accepted status transition through `updateStatus` appends
exactly one timeline entry, with monotone timestamps and no mutation of
existing entries.  The code violates the "exactly one" part: `updateStatus`
pushes one entry itself and then `save()` fires the pre-save hook, which —
because the status path was modified — pushes a second entry for the same
transition (with `performedBy` set to the employer and no notes).  Evaluated
at a concrete accepted transition: the timeline grows by two entries, not
one (the pre-existing entry is preserved and both new entries carry the
latest timestamp). -/
theorem updateStatus_appends_two_entries :
    (updateStatus baseApp "shortlisted" "emp1" "note" 5).toOption.map
        (fun d => d.timeline) =
      some (baseApp.timeline ++
        [{ action := "shortlisted", date := 5, performedBy := "emp1", notes := some "note" },
         { action := "shortlisted", date := 5, performedBy := "emp1", notes := none }]) ∧
    (updateStatus baseApp "shortlisted" "emp1" "note" 5).toOption.map
        (fun d => d.timeline.length) ≠ some (baseApp.timeline.length + 1) := by
  decide

/-- Claim C2: all nine legal status values are accepted and persisted with a
timeline entry, and only strings outside the enum are rejected.  The code
violates this for `"reviewing"`: it is in the 9-value status enum (so the
route validator admits it), but the `timeline.action` enum contains
`"viewed"` instead of `"reviewing"`, so the entry pushed by `updateStatus`
fails schema validation and the request dies with HTTP 500, persisting
nothing.  Status strings outside the enum are rejected with 400 as claimed,
and other enum values (e.g. `"shortlisted"`) are accepted. -/
theorem putStatus_reviewing_rejected :
    statusEnum.contains "reviewing" = true ∧
    timelineActionEnum.contains "reviewing" = false ∧
    putStatusRoute (some baseApp) employerActor "reviewing" "" 7 = ⟨500, none⟩ ∧
    putStatusRoute (some baseApp) employerActor "bogus" "" 7 = ⟨400, none⟩ ∧
    (putStatusRoute (some baseApp) employerActor "shortlisted" "" 7).statusCode = 200 := by
  decide

/-- Claim C4: `acceptOffer` is applicant-only, fails when status is not
`offered`, and on success sets `offer.accepted`, `offer.acceptedAt`, forces
status to `hired`, and appends exactly one timeline entry.  All conjuncts
hold except the last: the success path appends TWO timeline entries (one
from `updateStatus`, one from the pre-save hook), as evaluated here on an
offered application whose timeline had 2 entries and ends with 4. -/
theorem acceptOffer_appends_two_entries :
    (acceptOfferRoute (some offeredApp) candidateActor 9).statusCode = 200 ∧
    (acceptOfferRoute (some offeredApp) candidateActor 9).app.map
        (fun d => (d.status, d.offer.accepted, d.offer.acceptedAt, d.timeline.length)) =
      some ("hired", true, some 9, offeredApp.timeline.length + 2) ∧
    acceptOfferRoute (some baseApp) candidateActor 9 = ⟨400, none⟩ ∧
    acceptOfferRoute (some offeredApp) employerActor 9 = ⟨403, none⟩ := by
  decide

/-- Claim C3 (counterexample): the claim says a remote job contributes
exactly 20 location points even when the candidate's location is absent.
False: the remote bonus sits inside the `userLocation && job.location`
guard, so a candidate with no profile location gets 0 location points from a
remote job. -/
theorem remote_no_location_zero :
    (remoteJob.location.map (fun l => l.remote)) = some true ∧
    userLocationOf candidateActor = none ∧
    locationScore remoteJob candidateActor = 0 ∧
    locationScore remoteJob candidateActor ≠ 20 := by
  refine ⟨rfl, rfl, ?_, ?_⟩ <;> decide

/-- Claim C3 (amended): for every job whose location is marked remote, the
location component is 20 when the candidate has a profile location and 0
when the candidate's location is absent. -/
theorem locationScore_remote_eq (job : Job) (user : User) (l : JobLocation)
    (hl : job.location = some l) (hremote : l.remote = true) :
    locationScore job user = if (userLocationOf user).isSome then 20 else 0 := by
  rcases hu : userLocationOf user with _ | u
  · rw [locationScore_none job user hu]
    simp
  · rw [locationScore_some job user u l hu hl, if_pos hremote]
    simp

/-- Claim C3 (witness): the amended statement at concrete inputs — the same
remote job gives 20 to a located candidate. -/
theorem locationScore_remote_eq_witness :
    locationScore remoteJob locatedUser =
      if (userLocationOf locatedUser).isSome then 20 else 0 :=
  locationScore_remote_eq remoteJob locatedUser ⟨none, none, none, true⟩ rfl rfl

/-- Claim C7 (counterexample): for candidate skills [JavaScript, React] and
job skills [React, Node.js, MongoDB], the claim puts the skill component at
50×1/3 ≈ 16 after rounding.  False: 50/3 = 16.666…, and Math.round yields
17, as the full score (all other components are 0 here) shows. -/
theorem react_example_not_16 :
    jsRound (skillScore reactJob reactUser) = 17 ∧
    calculateJobMatch reactJob reactUser = some 17 ∧
    calculateJobMatch reactJob reactUser ≠ some 16 := by
  refine ⟨?_, calculateJobMatch_react_eval, ?_⟩
  · rw [skillScore_react_eval, jsRound]
    norm_num [Int.floor_eq_iff]
  · rw [calculateJobMatch_react_eval]
    decide

/-- Claim C7 (amended): exactly 1 of the candidate's skills overlaps the
job's 3 required skills under case-insensitive bidirectional substring
containment, out of max(2,3)=3, so the skill component is 50×1/3 = 50/3 ≈
16.67, which rounds to 17 in the final score. -/
theorem react_example_skill_component :
    (matchingSkills reactJob reactUser).length = 1 ∧
    Nat.max (candidateSkillsOf reactUser).length (jobSkillsOf reactJob).length = 3 ∧
    skillScore reactJob reactUser = 50 / 3 ∧
    calculateJobMatch reactJob reactUser = some 17 := by
  exact ⟨by decide, by decide, skillScore_react_eval, calculateJobMatch_react_eval⟩

/-- Claim C10: a candidate with empty skills, no location, no preferred job
types and no experience entries scores exactly 15 on `entry`- and
`junior`-level jobs and 0 on every other level, remote or not: the
experience count 0 satisfies those two bands, while the remote location
bonus is unreachable without a candidate location. -/
theorem emptyProfile_match (job : Job) (user : User)
    (hrole : user.role = "candidate")
    (hskills : candidateSkillsOf user = [])
    (hexp : candidateExperienceOf user = [])
    (hpref : preferredJobTypesOf user = [])
    (hloc : userLocationOf user = none) :
    calculateJobMatch job user =
      some (if job.level = "entry" ∨ job.level = "junior" then 15 else 0) := by
  have hs : skillScore job user = 0 := by
    unfold skillScore
    rw [if_neg (by simp [hskills])]
  have hl := locationScore_none job user hloc
  have ht : jobTypeScore job user = 0 := by
    unfold jobTypeScore
    rw [if_neg (by simp [hpref])]
  have he : experienceScore job user =
      (if job.level = "entry" ∨ job.level = "junior" then (15 : ℚ) else 0) := by
    unfold experienceScore
    rw [hexp]
    by_cases h1 : job.level = "entry"
    · simp [h1]
    · by_cases h2 : job.level = "junior"
      · simp [h1, h2]
      · simp [h1, h2]
  unfold calculateJobMatch
  rw [if_neg (by simp [hrole]), hs, hl, ht, he]
  by_cases hP : job.level = "entry" ∨ job.level = "junior"
  · rw [if_pos hP, if_pos hP, jsRound]
    norm_num [Int.floor_eq_iff]
  · rw [if_neg hP, if_neg hP, jsRound]
    norm_num [Int.floor_eq_iff]

/-- Claim C10 (witness): the empty-profile candidate scores 15 on a remote
entry-level job. -/
theorem emptyProfile_match_witness :
    calculateJobMatch entryRemoteJob candidateActor = some 15 := by
  have h := emptyProfile_match entryRemoteJob candidateActor rfl rfl rfl rfl rfl
  have hlev : entryRemoteJob.level = "entry" := rfl
  rw [h, hlev]
  simp

/-- Claim C8: for every job and candidate, the job-listing match score is an
integer between 0 and 100 (and, being a pure function of its arguments, it
is deterministic). -/
theorem calculateJobMatch_range (job : Job) (user : User)
    (h : user.role = "candidate") :
    ∃ n : ℤ, calculateJobMatch job user = some n ∧ 0 ≤ n ∧ n ≤ 100 := by
  obtain ⟨hl0, hl20⟩ := locationScore_bounds job user
  obtain ⟨ht0, ht15⟩ := jobTypeScore_bounds job user
  obtain ⟨he0, he15⟩ := experienceScore_bounds job user
  have hs0 := skillScore_nonneg job user
  have hs50 := skillScore_le_fifty job user
  refine ⟨jsRound (skillScore job user + locationScore job user +
      jobTypeScore job user + experienceScore job user), ?_, ?_, ?_⟩
  · unfold calculateJobMatch
    rw [if_neg (by simp [h])]
  · rw [jsRound]
    apply Int.le_floor.mpr
    push_cast
    linarith
  · rw [jsRound]
    have hlt : ⌊skillScore job user + locationScore job user + jobTypeScore job user +
        experienceScore job user + 1/2⌋ < (101 : ℤ) := by
      apply Int.floor_lt.mpr
      push_cast
      linarith
    omega

/-- Claim C8 (witness): the range statement at a concrete job/candidate. -/
theorem calculateJobMatch_range_witness :
    ∃ n : ℤ, calculateJobMatch reactJob reactUser = some n ∧ 0 ≤ n ∧ n ≤ 100 :=
  calculateJobMatch_range reactJob reactUser rfl

/-- Claim C9: the submission-time scorer on the Application document equals
`min(skills*10,50) + min(experience*5,30) + min(education*5,20)` capped at
100, and it is a different computation from the job-listing scorer: the same
candidate data ([JavaScript, React], no experience, no education) scores 17
with the job-listing scorer against `reactJob` but 20 with the
submission-time scorer. -/
theorem calculateMatchScore_independent :
    (∀ app : Application, calculateMatchScoreValue app =
        min (min (app.skills.length * 10) 50 + min (app.experience.length * 5) 30 +
          min (app.education.length * 5) 20) 100) ∧
    calculateJobMatch reactJob reactUser = some 17 ∧
    calculateMatchScoreValue reactApp = 20 ∧
    ((calculateMatchScoreValue reactApp : ℤ) ≠ 17) := by
  refine ⟨?_, calculateJobMatch_react_eval, by decide, by decide⟩
  intro app
  unfold calculateMatchScoreValue
  rcases Nat.eq_zero_or_pos app.skills.length with h1 | h1 <;>
    rcases Nat.eq_zero_or_pos app.experience.length with h2 | h2 <;>
      rcases Nat.eq_zero_or_pos app.education.length with h3 | h3 <;>
        simp [h1, h2, h3, Nat.zero_min, Nat.min_zero]

/-- Claim C5 (counterexample): the claim says `POST /applications` fails
with HTTP 400 when the referenced job is missing.  False: a missing job is
answered with 404 (`Job not found`), not 400. -/
theorem postApplication_missing_job_404 :
    postApplicationRoute [] [] candidateActor validReq 3 = ⟨404, none⟩ ∧
    (postApplicationRoute [] [] candidateActor validReq 3).statusCode ≠ 400 := by
  decide

/-- Claim C5 (amended): for a well-formed candidate submission,
`POST /applications` answers 404 when the referenced job is missing, 400
when the job is not active or not approved, 400 when the caller already has
an application for that job, and otherwise 201 with the created application
carrying its independently computed matchScore. -/
theorem postApplication_status_spec (jobs : List Job) (apps : List Application)
    (user : User) (req : SubmitRequest) (now : ℕ)
    (hrole : user.role = "candidate") (hv : validateSubmit req = true) :
    (jobs.find? (fun j => j.id == req.jobId) = none →
      postApplicationRoute jobs apps user req now = ⟨404, none⟩) ∧
    (∀ job, jobs.find? (fun j => j.id == req.jobId) = some job →
      job.status ≠ "active" ∨ job.approved = false →
      postApplicationRoute jobs apps user req now = ⟨400, none⟩) ∧
    (∀ job, jobs.find? (fun j => j.id == req.jobId) = some job →
      job.status = "active" → job.approved = true →
      apps.any (fun a => a.job == req.jobId && a.applicant == user.id) = true →
      postApplicationRoute jobs apps user req now = ⟨400, none⟩) ∧
    (∀ job, jobs.find? (fun j => j.id == req.jobId) = some job →
      job.status = "active" → job.approved = true →
      apps.any (fun a => a.job == req.jobId && a.applicant == user.id) = false →
      postApplicationRoute jobs apps user req now =
        ⟨201, some (scoredApplication job user req)⟩ ∧
      (scoredApplication job user req).matchScore =
        some (calculateMatchScoreValue (scoredApplication job user req))) := by
  refine ⟨?_, ?_, ?_, ?_⟩
  · intro hfind
    unfold postApplicationRoute
    rw [if_neg (by simp [hrole]), if_neg (by simp [hv]), hfind]
  · intro job hfind hbad
    unfold postApplicationRoute
    rw [if_neg (by simp [hrole]), if_neg (by simp [hv]), hfind]
    change (if job.status ≠ "active" ∨ job.approved = false
        then (⟨400, none⟩ : RouteResult) else _) = _
    rw [if_pos hbad]
  · intro job hfind hactive happroved hdup
    unfold postApplicationRoute
    rw [if_neg (by simp [hrole]), if_neg (by simp [hv]), hfind]
    change (if job.status ≠ "active" ∨ job.approved = false
        then (⟨400, none⟩ : RouteResult) else _) = _
    rw [if_neg (by simp [hactive, happroved]), if_pos hdup]
  · intro job hfind hactive happroved hany
    exact ⟨postApplication_success jobs apps user req now job hrole hv hfind
      hactive happroved hany, rfl⟩

/-- Claim C5 (witness): the amended statement at concrete collections — the
missing-job case and the success case. -/
theorem postApplication_status_spec_witness :
    postApplicationRoute [] [] candidateActor validReq 3 = ⟨404, none⟩ ∧
    postApplicationRoute [activeJob] [] candidateActor validReq 3 =
      ⟨201, some (scoredApplication activeJob candidateActor validReq)⟩ := by
  refine ⟨(postApplication_status_spec [] [] candidateActor validReq 3 rfl
      (by decide)).1 rfl, ?_⟩
  exact ((postApplication_status_spec [activeJob] [] candidateActor validReq 3 rfl
    (by decide)).2.2.2 activeJob rfl rfl rfl rfl).1

/-- Claim C6: a submission for a (job, applicant) pair that already has an
application is rejected with a 400 conflict and persists nothing, and the
invariant "at most one Application per (job, applicant) pair" is preserved
by the submission route. -/
theorem postApplication_unique_pair (jobs : List Job) (apps : List Application)
    (user : User) (req : SubmitRequest) (now : ℕ) :
    (apps.any (fun a => a.job == req.jobId && a.applicant == user.id) = true →
      (postApplicationRoute jobs apps user req now).app = none ∧
      postApplicationApps jobs apps user req now = apps) ∧
    (user.role = "candidate" → validateSubmit req = true →
      ∀ job, jobs.find? (fun j => j.id == req.jobId) = some job →
      job.status = "active" → job.approved = true →
      apps.any (fun a => a.job == req.jobId && a.applicant == user.id) = true →
      postApplicationRoute jobs apps user req now = ⟨400, none⟩) ∧
    (pairUnique apps → pairUnique (postApplicationApps jobs apps user req now)) := by
  refine ⟨?_, ?_, ?_⟩
  · intro hdup
    have happ : (postApplicationRoute jobs apps user req now).app = none := by
      cases happ : (postApplicationRoute jobs apps user req now).app with
      | none => rfl
      | some d =>
        obtain ⟨-, -, hany⟩ := postApplication_created jobs apps user req now d happ
        rw [hdup] at hany
        exact absurd hany (by simp)
    refine ⟨happ, ?_⟩
    unfold postApplicationApps
    rw [happ]
  · intro hrole hv job hfind hactive happroved hdup
    unfold postApplicationRoute
    rw [if_neg (by simp [hrole]), if_neg (by simp [hv]), hfind]
    change (if job.status ≠ "active" ∨ job.approved = false
        then (⟨400, none⟩ : RouteResult) else _) = _
    rw [if_neg (by simp [hactive, happroved]), if_pos hdup]
  · intro hpu
    unfold postApplicationApps
    cases happ : (postApplicationRoute jobs apps user req now).app with
    | none => exact hpu
    | some d =>
      obtain ⟨hdj, hda, hany⟩ := postApplication_created jobs apps user req now d happ
      unfold pairUnique at hpu ⊢
      rw [List.pairwise_append]
      refine ⟨hpu, List.pairwise_singleton _ _, ?_⟩
      intro a ha b hb
      have hb' : b = d := by simpa using hb
      rw [hb']
      rcases eq_or_ne a.job d.job with hj | hj
      · right
        intro hcontra
        have hpa := List.any_eq_false.mp hany a ha
        apply hpa
        rw [hdj] at hj
        rw [hda] at hcontra
        simp [hj, hcontra]
      · left
        exact hj

/-- Claim C6 (witness): a duplicate submission at concrete collections is
rejected, and uniqueness is preserved across a successful submission. -/
theorem postApplication_unique_pair_witness :
    (postApplicationRoute [activeJob]
        [newApplication activeJob candidateActor validReq]
        candidateActor validReq 3).app = none ∧
    pairUnique (postApplicationApps [activeJob] [] candidateActor validReq 3) := by
  refine ⟨((postApplication_unique_pair [activeJob]
      [newApplication activeJob candidateActor validReq]
      candidateActor validReq 3).1 (by decide)).1, ?_⟩
  exact (postApplication_unique_pair [activeJob] [] candidateActor validReq 3).2.2
    (by exact List.Pairwise.nil)
